import Mathlib

/-!
Verification development for the PSO fly-scan core (tomoscan_pso.py).

The numeric model uses exact rationals for the real-valued quantities of the
source and integers for encoder counts.  Python's built-in round (round half
to even) is modelled by pyRound.  The imperative control-point sequences are
modelled as traces of steps, with Python module-global name resolution made
explicit, since the module imports only TomoScan and log.
-/

namespace TomoScanPSOModel

/-- Python's built-in round: nearest integer, ties to even. -/
def pyRound (q : ℚ) : ℤ :=
  let f := ⌊q⌋
  if q - f < 1/2 then f
  else if 1/2 < q - f then f + 1
  else if f % 2 = 0 then f else f + 1

/-- Inputs read by compute_positions_PSO: object attributes set before the
call (rotation_start, rotation_stop, rotation_step, num_angles, motor_speed)
and the two PVs it gets (RotationAccelTime, PSOPulsesPerRotation). -/
structure PsoInput where
  rotation_start : ℚ
  rotation_stop : ℚ
  rotation_step : ℚ
  num_angles : ℕ
  motor_speed : ℚ
  accel_time : ℚ
  pulses_per_rotation : ℚ
deriving DecidableEq

/-- user_direction from _compute_senses: 1 if rotation_stop > rotation_start
else -1, evaluated on the attributes as they are at entry. -/
def user_direction (i : PsoInput) : ℤ :=
  if i.rotation_start < i.rotation_stop then 1 else -1

/-- encoder_multiply = float(PSOPulsesPerRotation) / 360. -/
def encoder_multiply (i : PsoInput) : ℚ := i.pulses_per_rotation / 360

/-- raw_delta_encoder_counts = rotation_step * encoder_multiply. -/
def raw_delta_encoder_counts (i : PsoInput) : ℚ :=
  i.rotation_step * encoder_multiply i

/-- delta_encoder_counts = round(raw_delta_encoder_counts). -/
def delta_encoder_counts (i : PsoInput) : ℤ :=
  pyRound (raw_delta_encoder_counts i)

/-- The corrected rotation_step written back to the attribute and the
RotationStep PV: delta_encoder_counts / encoder_multiply. -/
def corrected_step (i : PsoInput) : ℚ :=
  (delta_encoder_counts i : ℚ) / encoder_multiply i

/-- accel_dist = motor_accl_time / 2.0 * motor_speed. -/
def accel_dist (i : PsoInput) : ℚ := i.accel_time / 2 * i.motor_speed

/-- taxi_dist = (ceil(accel_dist / rotation_step) + 0.5) * rotation_step,
using the corrected rotation_step. -/
def taxi_dist (i : PsoInput) : ℚ :=
  ((⌈accel_dist i / corrected_step i⌉ : ℚ) + 1/2) * corrected_step i

/-- Outputs of compute_positions_PSO: the values written to PVs
(EncoderPulsesPerStep, RotationStep, startTaxi, endTaxi), the updated
attributes, and whether the rounding warning fired. -/
structure PsoResult where
  user_direction : ℤ
  delta_encoder_counts : ℤ
  warn : Bool
  rotation_step : ℚ
  taxi_dist : ℚ
  startTaxi : ℚ
  endTaxi : ℚ
  rotation_stop : ℚ
deriving DecidableEq

/-- Shallow embedding of compute_positions_PSO.  Note the source order:
startTaxi and endTaxi are computed from the rotation_stop attribute as it
was at entry, and only afterwards is rotation_stop reassigned to
rotation_start + (num_angles - 1) * rotation_step * user_direction with the
corrected step. -/
def compute_positions_PSO (i : PsoInput) : PsoResult :=
  { user_direction := user_direction i
    delta_encoder_counts := delta_encoder_counts i
    warn := decide (1/10000 < |raw_delta_encoder_counts i - (delta_encoder_counts i : ℚ)|)
    rotation_step := corrected_step i
    taxi_dist := taxi_dist i
    startTaxi := i.rotation_start - taxi_dist i * (user_direction i : ℚ)
    endTaxi := i.rotation_stop + taxi_dist i * (user_direction i : ℚ)
    rotation_stop := i.rotation_start
      + ((i.num_angles : ℚ) - 1) * corrected_step i * (user_direction i : ℚ) }

/-- Motor speed derivation in begin_scan:
self.motor_speed = self.rotation_step / time_per_angle. -/
def begin_scan_motor_speed (rotation_step time_per_angle : ℚ) : ℚ :=
  rotation_step / time_per_angle

/-- The PSO window programmed by program_PSO, in raw encoder counts, as the
pair (window_start - 5, window_end + 5) actually sent in the
PSOWINDOW RANGE command.  spacing is the EncoderPulsesPerStep PV value. -/
def program_PSO_window (spacing : ℤ) (num_angles : ℕ) (overall_sense : ℤ) : ℤ × ℤ :=
  let range_start : ℤ := -(pyRound ((spacing : ℚ) / 2)) * overall_sense
  let range_length : ℤ := spacing * (num_angles : ℤ)
  if 0 < overall_sense then (range_start - 5, range_start + range_length + 5)
  else ((range_start - range_length) - 5, range_start + 5)

/-- A value written to a control point. -/
inductive PvVal where
  | str (s : String)
  | int (n : ℤ)
  | rat (q : ℚ)
deriving DecidableEq

/-- One put on a control point: pv name, value, and whether the write blocks
until acknowledged (wait=True in the source). -/
structure PvWrite where
  pv : String
  val : PvVal
  wait : Bool
deriving DecidableEq

/-- The camera trigger modes handled by set_trigger_mode.  The source
branches on the strings FreeRun and Internal and treats every other string
as external PSO triggering. -/
inductive TriggerMode where
  | FreeRun
  | Internal
  | ExternalPSO
deriving DecidableEq

/-- Sequence of camera control-point writes issued by set_trigger_mode, in
source order.  num_images is the method parameter (used for CamNumImages in
the Internal branch); num_angles is the attribute used for CamNumImages in
the external branch; trig_source is the string read from the
ExternalTriggerSource PV in the external branch. -/
def set_trigger_mode (m : TriggerMode) (num_images num_angles : ℤ)
    (trig_source : String) : List PvWrite :=
  ⟨"CamAcquire", PvVal.str "Done", true⟩ ::
  (match m with
   | TriggerMode.FreeRun =>
      [⟨"CamImageMode", PvVal.str "Continuous", true⟩,
       ⟨"CamTriggerMode", PvVal.str "Off", true⟩,
       ⟨"CamAcquire", PvVal.str "Acquire", false⟩]
   | TriggerMode.Internal =>
      [⟨"CamTriggerMode", PvVal.str "Off", true⟩,
       ⟨"CamImageMode", PvVal.str "Multiple", false⟩,
       ⟨"CamNumImages", PvVal.int num_images, true⟩]
   | TriggerMode.ExternalPSO =>
      [⟨"CamTriggerMode", PvVal.str "Off", true⟩,
       ⟨"CamTriggerSource", PvVal.str trig_source, true⟩,
       ⟨"CamTriggerOverlap", PvVal.int 1, true⟩,
       ⟨"CamExposureMode", PvVal.str "Timed", true⟩,
       ⟨"CamImageMode", PvVal.str "Multiple", false⟩,
       ⟨"CamArrayCallbacks", PvVal.str "Enable", false⟩,
       ⟨"CamFrameRateEnable", PvVal.int 0, false⟩,
       ⟨"CamNumImages", PvVal.int num_angles, true⟩,
       ⟨"CamTriggerMode", PvVal.str "On", true⟩])

/-- One step of a method body, at the granularity needed to model module
global-name resolution and control-point traffic: a module-global name
lookup, a PV get, a PV put, a base-class method call, or a call to another
method of the object. -/
inductive Step where
  | globalRef (name : String)
  | pvGet (pv : String)
  | pvPut (w : PvWrite)
  | callBase (m : String)
  | callSelf (m : String)
deriving DecidableEq

/-- The only module-level imports of the source (lines 9-10): TomoScan and
log, both from the tomoscan package. -/
def moduleImports : List String := ["TomoScan", "log"]

/-- Python builtin names referenced by the module body; these always
resolve. -/
def pythonBuiltins : List String := ["super", "int", "float", "round", "abs"]

/-- A module-global name resolves iff it is imported or a builtin. -/
def resolvesName (n : String) : Bool :=
  moduleImports.contains n || pythonBuiltins.contains n

/-- Run a method body: steps execute in order until a global name fails to
resolve, which raises NameError naming it; later steps never execute.
Returns the executed step prefix and the unresolved name, if any. -/
def runSteps : List Step → List Step × Option String
  | [] => ([], none)
  | Step.globalRef n :: rest =>
      if resolvesName n then
        let r := runSteps rest
        (Step.globalRef n :: r.1, r.2)
      else ([], some n)
  | s :: rest =>
      let r := runSteps rest
      (s :: r.1, r.2)

/-- Body of collect_static_frames: log.info, set_trigger_mode(Internal, n),
CamAcquire put, time.sleep(0.5), compute_frame_time, wait_camera_done. -/
def collect_static_frames_steps : List Step :=
  [Step.globalRef "log",
   Step.callSelf "set_trigger_mode",
   Step.pvPut ⟨"CamAcquire", PvVal.str "Acquire", false⟩,
   Step.globalRef "time",
   Step.callSelf "compute_frame_time",
   Step.callSelf "wait_camera_done"]

/-- Body of begin_scan: log.info, base-class begin_scan, compute_frame_time
(the motor_speed assignment is attribute-local), time.sleep(0.1),
self.compute_positions(), self.program_PSO(), FPNumCapture put, FPCapture
put.  Note the source calls compute_positions, not compute_positions_PSO. -/
def begin_scan_steps (total_images : ℤ) : List Step :=
  [Step.globalRef "log",
   Step.callBase "begin_scan",
   Step.callSelf "compute_frame_time",
   Step.globalRef "time",
   Step.callSelf "compute_positions",
   Step.callSelf "program_PSO",
   Step.pvPut ⟨"FPNumCapture", PvVal.int total_images, true⟩,
   Step.pvPut ⟨"FPCapture", PvVal.str "Capture", false⟩]

/-- Body of end_scan: log.info, FPFullFileName get, log.info,
os.path.splitext, save_configuration, set_trigger_mode(FreeRun, 1),
RotationSpeed put of max_rotation_speed, cleanup_PSO, move_sample_in,
base-class end_scan. -/
def end_scan_steps (max_rotation_speed : ℚ) : List Step :=
  [Step.globalRef "log",
   Step.pvGet "FPFullFileName",
   Step.globalRef "log",
   Step.globalRef "os",
   Step.callSelf "save_configuration",
   Step.callSelf "set_trigger_mode",
   Step.pvPut ⟨"RotationSpeed", PvVal.rat max_rotation_speed, false⟩,
   Step.callSelf "cleanup_PSO",
   Step.callSelf "move_sample_in",
   Step.callBase "end_scan"]

/-- Body of compute_positions_PSO at name-resolution granularity:
_compute_senses, float(RotationAccelTime get), float(motor_speed),
float(PSOPulsesPerRotation get) / 360, round(raw counts), abs(...) in the
warning test, the warning logs when the test fires, EncoderPulsesPerStep
put, RotationStep put, math.ceil, startTaxi put, endTaxi put.  The put
values carry the results of the arithmetic model. -/
def compute_positions_PSO_steps (warn : Bool) (delta : ℤ)
    (stepv startT endT : ℚ) : List Step :=
  [Step.callSelf "_compute_senses",
   Step.globalRef "float", Step.pvGet "RotationAccelTime",
   Step.globalRef "float",
   Step.globalRef "float", Step.pvGet "PSOPulsesPerRotation",
   Step.globalRef "round",
   Step.globalRef "abs"]
  ++ (if warn then
        [Step.globalRef "log", Step.globalRef "log", Step.globalRef "log"]
      else [])
  ++ [Step.pvPut ⟨"EncoderPulsesPerStep", PvVal.int delta, false⟩,
      Step.pvPut ⟨"RotationStep", PvVal.rat stepv, false⟩,
      Step.globalRef "math",
      Step.pvPut ⟨"startTaxi", PvVal.rat startT, false⟩,
      Step.pvPut ⟨"endTaxi", PvVal.rat endT, false⟩]

/-- Concrete planner input where the incoming rotation_stop (1) disagrees
with the stop recomputed from the corrected step (0.25): start 0, stop 1,
step 0.25 deg, 2 angles, 36000 pulses per rotation, zero accel time. -/
def exStaleStop : PsoInput :=
  { rotation_start := 0
    rotation_stop := 1
    rotation_step := 1/4
    num_angles := 2
    motor_speed := 1
    accel_time := 0
    pulses_per_rotation := 36000 }

/-- Concrete planner input whose incoming rotation_stop (0.25) already
equals the stop recomputed from the corrected step. -/
def exConsistentStop : PsoInput :=
  { rotation_start := 0
    rotation_stop := 1/4
    rotation_step := 1/4
    num_angles := 2
    motor_speed := 1
    accel_time := 0
    pulses_per_rotation := 36000 }

/-- Concrete planner input of the spec example: step 0.24999 deg with 36000
pulses per rotation, so 24.999 raw counts. -/
def exWarnStep : PsoInput :=
  { rotation_start := 0
    rotation_stop := 1
    rotation_step := 24999/100000
    num_angles := 2
    motor_speed := 1
    accel_time := 0
    pulses_per_rotation := 36000 }

/-- Concrete planner input of the spec example: step 0.25 deg with 36000
pulses per rotation, exactly 25 raw counts. -/
def exExactStep : PsoInput :=
  { rotation_start := 0
    rotation_stop := 1
    rotation_step := 1/4
    num_angles := 2
    motor_speed := 1
    accel_time := 0
    pulses_per_rotation := 36000 }

/-- Concrete planner input for the degenerate taxi case: a single angle and
zero acceleration time. -/
def exSingleAngle : PsoInput :=
  { rotation_start := 0
    rotation_stop := 1
    rotation_step := 1/4
    num_angles := 1
    motor_speed := 1
    accel_time := 0
    pulses_per_rotation := 36000 }

end TomoScanPSOModel

namespace TomoScanPSOModel

/-- Python round never differs from its argument by more than one half. -/
theorem pyRound_abs_sub_le_half (q : ℚ) : |q - (pyRound q : ℚ)| ≤ 1/2 := by
  have hf : (⌊q⌋ : ℚ) ≤ q := Int.floor_le q
  have hf1 : q < ⌊q⌋ + 1 := Int.lt_floor_add_one q
  simp only [pyRound]
  split_ifs with h1 h2 h3
  · rw [abs_le]
    constructor <;> linarith
  · rw [abs_le]
    push_cast
    constructor <;> linarith
  · rw [abs_le]
    constructor <;> linarith
  · rw [abs_le]
    push_cast
    constructor <;> linarith

/-- Python round yields a nearest integer: no integer is strictly closer. -/
theorem pyRound_nearest (q : ℚ) (m : ℤ) :
    |q - (pyRound q : ℚ)| ≤ |q - (m : ℚ)| := by
  rcases eq_or_ne m (pyRound q) with rfl | hm
  · exact le_refl _
  · have h1 : |q - (pyRound q : ℚ)| ≤ 1/2 := pyRound_abs_sub_le_half q
    have hz : pyRound q - m ≠ 0 := sub_ne_zero.mpr (Ne.symm hm)
    have hint : (1:ℤ) ≤ |pyRound q - m| := Int.one_le_abs hz
    have hint2 : (1:ℚ) ≤ |(pyRound q : ℚ) - (m : ℚ)| := by
      have := hint
      push_cast at this ⊢
      exact_mod_cast this
    have htri : |(pyRound q : ℚ) - (m : ℚ)| ≤ |(pyRound q : ℚ) - q| + |q - (m : ℚ)| :=
      abs_sub_le _ q _
    have hcomm : |(pyRound q : ℚ) - q| = |q - (pyRound q : ℚ)| := abs_sub_comm _ _
    linarith

/-- Claim C1, amended.  compute_positions_PSO derives endTaxi from the
rotation_stop attribute as it is at entry, before rotation_stop is
reassigned from the corrected step.  The round-trip identity
endTaxi = recomputed rotation_stop + taxi_dist * user_direction therefore
holds exactly when the incoming rotation_stop already equals the stop
recomputed from the corrected step. -/
theorem C1_roundtrip (i : PsoInput)
    (h : i.rotation_stop = (compute_positions_PSO i).rotation_stop) :
    (compute_positions_PSO i).endTaxi =
      (compute_positions_PSO i).rotation_stop
        + (compute_positions_PSO i).taxi_dist
            * ((compute_positions_PSO i).user_direction : ℚ) := by
  simp only [compute_positions_PSO] at h ⊢
  rw [← h]

/-- Witness for C1_roundtrip: a scan whose incoming rotation_stop 0.25
equals the stop recomputed from the corrected step, so the round trip
closes. -/
theorem C1_witness :
    exConsistentStop.rotation_stop = (compute_positions_PSO exConsistentStop).rotation_stop
    ∧ (compute_positions_PSO exConsistentStop).endTaxi =
        (compute_positions_PSO exConsistentStop).rotation_stop
          + (compute_positions_PSO exConsistentStop).taxi_dist
              * ((compute_positions_PSO exConsistentStop).user_direction : ℚ) :=
  ⟨by norm_num [compute_positions_PSO, exConsistentStop, corrected_step, delta_encoder_counts,
      raw_delta_encoder_counts, encoder_multiply, user_direction, pyRound],
   C1_roundtrip exConsistentStop
     (by norm_num [compute_positions_PSO, exConsistentStop, corrected_step, delta_encoder_counts,
        raw_delta_encoder_counts, encoder_multiply, user_direction, pyRound])⟩

/-- Counterexample to claim C1 as stated: with rotation_start 0,
rotation_stop 1, step 0.25, 2 angles, the recomputed rotation_stop is 0.25
but endTaxi was derived from the stale stop 1 (endTaxi = 1.125 while
recomputed stop plus taxi distance is 0.375). -/
theorem C1_counterexample :
    ¬ ((compute_positions_PSO exStaleStop).endTaxi =
        (compute_positions_PSO exStaleStop).rotation_stop
          + (compute_positions_PSO exStaleStop).taxi_dist
              * ((compute_positions_PSO exStaleStop).user_direction : ℚ)) := by
  norm_num [compute_positions_PSO, exStaleStop, taxi_dist, corrected_step, delta_encoder_counts,
    raw_delta_encoder_counts, encoder_multiply, accel_dist, user_direction, pyRound]

/-- Claim C2, amended.  begin_scan derives motor_speed as
rotation_step / time_per_angle, and this speed is at most
max_rotation_speed exactly when rotation_step is at most
max_rotation_speed * time_per_angle; the source performs no comparison or
clamp against the hardware maximum. -/
theorem C2_motor_speed (rotation_step time_per_angle max_rotation_speed : ℚ)
    (ht : 0 < time_per_angle) :
    begin_scan_motor_speed rotation_step time_per_angle = rotation_step / time_per_angle
    ∧ (begin_scan_motor_speed rotation_step time_per_angle ≤ max_rotation_speed
        ↔ rotation_step ≤ max_rotation_speed * time_per_angle) := by
  refine ⟨rfl, ?_⟩
  unfold begin_scan_motor_speed
  exact div_le_iff₀ ht

/-- Witness for C2_motor_speed at step 0.25 deg, 1 s per angle, 50 deg/s
maximum. -/
theorem C2_witness :
    (0:ℚ) < 1
    ∧ (begin_scan_motor_speed (1/4) 1 = (1/4) / 1
        ∧ (begin_scan_motor_speed (1/4) 1 ≤ 50 ↔ (1/4 : ℚ) ≤ 50 * 1)) :=
  ⟨by norm_num, C2_motor_speed (1/4) 1 50 (by norm_num)⟩

/-- Counterexample to claim C2 as stated: step 10 deg at 0.1 s per angle
gives motor_speed 100, which exceeds a hardware maximum of 50; nothing in
begin_scan prevents this. -/
theorem C2_counterexample :
    begin_scan_motor_speed 10 (1/10) = 100
    ∧ ¬ (begin_scan_motor_speed 10 (1/10) ≤ 50) := by
  norm_num [begin_scan_motor_speed]

/-- Claim C3 (code bug).  end_scan references os.path.splitext while the
module never imports os, so every call raises NameError at the
configuration-path computation, before save_configuration and before every
restore step (FreeRun restore, speed restore, PSO cleanup, sample-in, base
teardown); none of them executes, contradicting the claim that a
configuration-save failure is non-fatal and the restores still run. -/
theorem C3_end_scan_aborts (max_rotation_speed : ℚ) :
    runSteps (end_scan_steps max_rotation_speed)
      = ([Step.globalRef "log", Step.pvGet "FPFullFileName", Step.globalRef "log"], some "os")
    ∧ Step.callSelf "save_configuration" ∈ end_scan_steps max_rotation_speed
    ∧ Step.callSelf "save_configuration" ∉ (runSteps (end_scan_steps max_rotation_speed)).1
    ∧ Step.callSelf "set_trigger_mode" ∉ (runSteps (end_scan_steps max_rotation_speed)).1
    ∧ Step.pvPut ⟨"RotationSpeed", PvVal.rat max_rotation_speed, false⟩
        ∉ (runSteps (end_scan_steps max_rotation_speed)).1
    ∧ Step.callSelf "cleanup_PSO" ∉ (runSteps (end_scan_steps max_rotation_speed)).1
    ∧ Step.callSelf "move_sample_in" ∉ (runSteps (end_scan_steps max_rotation_speed)).1
    ∧ Step.callBase "end_scan" ∉ (runSteps (end_scan_steps max_rotation_speed)).1 := by
  refine ⟨rfl, ?_, ?_, ?_, ?_, ?_, ?_, ?_⟩ <;>
    simp [end_scan_steps, runSteps, resolvesName, moduleImports, pythonBuiltins]

/-- Claim C4, confirmed.  compute_positions_PSO converts the requested step
to raw counts via pulses_per_rotation / 360 and rounds to a nearest integer
(no integer is closer); the warning fires iff the rounding error exceeds
1e-4 of a count; the authoritative step becomes rounded counts divided by
counts per degree.  The spec examples: step 0.24999 with 36000 pulses gives
raw counts 24.999, rounds to 25 with a warning and corrected step 0.25;
step 0.25 gives exactly 25 with no warning. -/
theorem C4_rounding (i : PsoInput) :
    (∀ m : ℤ, |raw_delta_encoder_counts i - ((compute_positions_PSO i).delta_encoder_counts : ℚ)|
        ≤ |raw_delta_encoder_counts i - (m : ℚ)|)
    ∧ ((compute_positions_PSO i).warn = true
        ↔ 1/10000 < |raw_delta_encoder_counts i - ((compute_positions_PSO i).delta_encoder_counts : ℚ)|)
    ∧ (compute_positions_PSO i).rotation_step
        = ((compute_positions_PSO i).delta_encoder_counts : ℚ) / (i.pulses_per_rotation / 360)
    ∧ raw_delta_encoder_counts exWarnStep = 24999/1000
    ∧ (compute_positions_PSO exWarnStep).delta_encoder_counts = 25
    ∧ (compute_positions_PSO exWarnStep).warn = true
    ∧ (compute_positions_PSO exWarnStep).rotation_step = 1/4
    ∧ (compute_positions_PSO exExactStep).delta_encoder_counts = 25
    ∧ (compute_positions_PSO exExactStep).warn = false := by
  refine ⟨?_, ?_, ?_, ?_, ?_, ?_, ?_, ?_, ?_⟩
  · intro m
    simpa [compute_positions_PSO, delta_encoder_counts]
      using pyRound_nearest (raw_delta_encoder_counts i) m
  · simp [compute_positions_PSO, delta_encoder_counts]
  · simp [compute_positions_PSO, corrected_step, encoder_multiply]
  · norm_num [raw_delta_encoder_counts, encoder_multiply, exWarnStep]
  · norm_num [compute_positions_PSO, exWarnStep, delta_encoder_counts,
      raw_delta_encoder_counts, encoder_multiply, pyRound]
  · norm_num [compute_positions_PSO, exWarnStep, delta_encoder_counts,
      raw_delta_encoder_counts, encoder_multiply, pyRound, abs]
  · norm_num [compute_positions_PSO, exWarnStep, corrected_step, delta_encoder_counts,
      raw_delta_encoder_counts, encoder_multiply, pyRound]
  · norm_num [compute_positions_PSO, exExactStep, delta_encoder_counts,
      raw_delta_encoder_counts, encoder_multiply, pyRound]
  · norm_num [compute_positions_PSO, exExactStep, delta_encoder_counts,
      raw_delta_encoder_counts, encoder_multiply, pyRound, abs]

/-- Claim C5, confirmed.  For every nonnegative pulse spacing (the data
model keeps EncoderPulsesPerStep a positive integer), every angle count and
every overall_sense, the window programmed by program_PSO, widened by the
fixed 5-count margin on each side, has its start strictly below its end. -/
theorem C5_window_bounds (spacing : ℤ) (num_angles : ℕ) (overall_sense : ℤ)
    (h : 0 ≤ spacing) :
    (program_PSO_window spacing num_angles overall_sense).1
      < (program_PSO_window spacing num_angles overall_sense).2 := by
  have hlen : (0:ℤ) ≤ spacing * (num_angles : ℤ) :=
    mul_nonneg h (Int.natCast_nonneg _)
  simp only [program_PSO_window]
  split_ifs <;> dsimp only <;> linarith

/-- Witness for C5_window_bounds: 25 counts per step, 1500 angles, negative
overall sense. -/
theorem C5_witness :
    ((0:ℤ) ≤ 25)
    ∧ (program_PSO_window 25 1500 (-1)).1 < (program_PSO_window 25 1500 (-1)).2 :=
  ⟨by norm_num, C5_window_bounds 25 1500 (-1) (by norm_num)⟩

/-- Claim C6, confirmed.  With a positive corrected rotation_step and a
nonnegative acceleration distance, the taxi distance
(ceil(accel_dist / step) + 0.5) * step lies in the half-open interval
[ceil(accel_dist / step) * step, ceil(accel_dist / step) * step + step),
and zero acceleration time degenerates it to exactly half a step. -/
theorem C6_taxi_bounds (i : PsoInput)
    (hs : 0 < (compute_positions_PSO i).rotation_step)
    (ha : 0 ≤ accel_dist i) :
    (⌈accel_dist i / (compute_positions_PSO i).rotation_step⌉ : ℚ)
        * (compute_positions_PSO i).rotation_step ≤ (compute_positions_PSO i).taxi_dist
    ∧ (compute_positions_PSO i).taxi_dist
        < (⌈accel_dist i / (compute_positions_PSO i).rotation_step⌉ : ℚ)
            * (compute_positions_PSO i).rotation_step + (compute_positions_PSO i).rotation_step
    ∧ (i.accel_time = 0 →
        (compute_positions_PSO i).taxi_dist = (compute_positions_PSO i).rotation_step / 2) := by
  simp only [compute_positions_PSO] at hs ⊢
  refine ⟨?_, ?_, ?_⟩
  · unfold taxi_dist
    nlinarith [hs]
  · unfold taxi_dist
    nlinarith [hs]
  · intro h0
    have hz : accel_dist i = 0 := by simp [accel_dist, h0]
    unfold taxi_dist
    rw [hz]
    simp
    ring

/-- Witness for C6_taxi_bounds: a single angle and zero acceleration time,
the degenerate case named by the claim. -/
theorem C6_witness :
    0 < (compute_positions_PSO exSingleAngle).rotation_step
    ∧ 0 ≤ accel_dist exSingleAngle
    ∧ ((⌈accel_dist exSingleAngle / (compute_positions_PSO exSingleAngle).rotation_step⌉ : ℚ)
          * (compute_positions_PSO exSingleAngle).rotation_step
          ≤ (compute_positions_PSO exSingleAngle).taxi_dist
        ∧ (compute_positions_PSO exSingleAngle).taxi_dist
            < (⌈accel_dist exSingleAngle / (compute_positions_PSO exSingleAngle).rotation_step⌉ : ℚ)
                * (compute_positions_PSO exSingleAngle).rotation_step
                + (compute_positions_PSO exSingleAngle).rotation_step
        ∧ (exSingleAngle.accel_time = 0 →
            (compute_positions_PSO exSingleAngle).taxi_dist
              = (compute_positions_PSO exSingleAngle).rotation_step / 2)) :=
  ⟨by norm_num [compute_positions_PSO, exSingleAngle, corrected_step, delta_encoder_counts,
      raw_delta_encoder_counts, encoder_multiply, pyRound],
   by norm_num [accel_dist, exSingleAngle],
   C6_taxi_bounds exSingleAngle
     (by norm_num [compute_positions_PSO, exSingleAngle, corrected_step, delta_encoder_counts,
        raw_delta_encoder_counts, encoder_multiply, pyRound])
     (by norm_num [accel_dist, exSingleAngle])⟩

/-- Claim C7, confirmed.  For every target trigger mode and all parameter
values, the first control-point write of set_trigger_mode is the blocking
stop of camera acquisition (CamAcquire put of Done with wait), so no
mode-specific write precedes the stop. -/
theorem C7_stop_first (m : TriggerMode) (num_images num_angles : ℤ)
    (trig_source : String) :
    (set_trigger_mode m num_images num_angles trig_source).head?
      = some ⟨"CamAcquire", PvVal.str "Done", true⟩ := rfl

/-- Claim C8, confirmed.  In the external-PSO branch of set_trigger_mode,
the first mode-specific write disables external triggering, the trigger
source and image count are written strictly before the end of the sequence,
no write before the final one turns triggering on, and the final write is
the one that turns external triggering on. -/
theorem C8_external_order (num_images num_angles : ℤ) (trig_source : String) :
    (set_trigger_mode TriggerMode.ExternalPSO num_images num_angles trig_source).getLast?
        = some ⟨"CamTriggerMode", PvVal.str "On", true⟩
    ∧ (set_trigger_mode TriggerMode.ExternalPSO num_images num_angles trig_source).get? 1
        = some ⟨"CamTriggerMode", PvVal.str "Off", true⟩
    ∧ (∀ w ∈ (set_trigger_mode TriggerMode.ExternalPSO num_images num_angles trig_source).dropLast,
        ¬ (w.pv = "CamTriggerMode" ∧ w.val = PvVal.str "On"))
    ∧ (⟨"CamTriggerSource", PvVal.str trig_source, true⟩ : PvWrite)
        ∈ (set_trigger_mode TriggerMode.ExternalPSO num_images num_angles trig_source).dropLast
    ∧ (⟨"CamNumImages", PvVal.int num_angles, true⟩ : PvWrite)
        ∈ (set_trigger_mode TriggerMode.ExternalPSO num_images num_angles trig_source).dropLast := by
  refine ⟨rfl, rfl, ?_, ?_, ?_⟩
  · intro w hw
    simp [set_trigger_mode, List.dropLast] at hw
    rcases hw with rfl|rfl|rfl|rfl|rfl|rfl|rfl|rfl|rfl <;> simp
  · simp [set_trigger_mode, List.dropLast]
  · simp [set_trigger_mode, List.dropLast]

/-- Claim C9 (code bug).  begin_scan raises NameError at time.sleep(0.1)
(time is never imported) after the motor-speed computation but before the
planner, the PSO programmer and the file-writer commands, so no execution
reaches them; moreover the source line that should invoke the planner
names compute_positions, not compute_positions_PSO. -/
theorem C9_begin_scan_aborts (total_images : ℤ) :
    runSteps (begin_scan_steps total_images)
      = ([Step.globalRef "log", Step.callBase "begin_scan", Step.callSelf "compute_frame_time"],
         some "time")
    ∧ Step.callSelf "compute_positions" ∈ begin_scan_steps total_images
    ∧ Step.callSelf "compute_positions_PSO" ∉ begin_scan_steps total_images
    ∧ Step.callSelf "compute_positions" ∉ (runSteps (begin_scan_steps total_images)).1
    ∧ Step.callSelf "program_PSO" ∉ (runSteps (begin_scan_steps total_images)).1
    ∧ Step.pvPut ⟨"FPNumCapture", PvVal.int total_images, true⟩
        ∉ (runSteps (begin_scan_steps total_images)).1 := by
  refine ⟨rfl, ?_, ?_, ?_, ?_, ?_⟩
  · simp [begin_scan_steps]
  · simp [begin_scan_steps]
  · simp [begin_scan_steps, runSteps, resolvesName, moduleImports, pythonBuiltins]
  · simp [begin_scan_steps, runSteps, resolvesName, moduleImports, pythonBuiltins]
  · simp [begin_scan_steps, runSteps, resolvesName, moduleImports, pythonBuiltins]

/-- Claim C10, confirmed.  The module imports only TomoScan and log, and
collect_static_frames (time.sleep), begin_scan (time.sleep),
compute_positions_PSO (math.ceil) and end_scan (os.path) each reference a
module global that never resolves, so every call fails with NameError
before completing its control-point sequence. -/
theorem C10_name_errors (total_images : ℤ) (max_rotation_speed : ℚ)
    (warn : Bool) (delta : ℤ) (stepv startT endT : ℚ) :
    moduleImports = ["TomoScan", "log"]
    ∧ (runSteps collect_static_frames_steps).2 = some "time"
    ∧ Step.callSelf "wait_camera_done" ∉ (runSteps collect_static_frames_steps).1
    ∧ (runSteps (begin_scan_steps total_images)).2 = some "time"
    ∧ Step.pvPut ⟨"FPCapture", PvVal.str "Capture", false⟩
        ∉ (runSteps (begin_scan_steps total_images)).1
    ∧ (runSteps (end_scan_steps max_rotation_speed)).2 = some "os"
    ∧ (runSteps (compute_positions_PSO_steps warn delta stepv startT endT)).2 = some "math"
    ∧ Step.pvPut ⟨"startTaxi", PvVal.rat startT, false⟩
        ∉ (runSteps (compute_positions_PSO_steps warn delta stepv startT endT)).1
    ∧ Step.pvPut ⟨"endTaxi", PvVal.rat endT, false⟩
        ∉ (runSteps (compute_positions_PSO_steps warn delta stepv startT endT)).1 := by
  cases warn <;>
    refine ⟨rfl, rfl, ?_, rfl, ?_, rfl, rfl, ?_, ?_⟩ <;>
    simp [collect_static_frames_steps, begin_scan_steps, compute_positions_PSO_steps,
      runSteps, resolvesName, moduleImports, pythonBuiltins]

end TomoScanPSOModel
